import Mathlib

/-
Shallow embedding of `src/src/structures/Chat.js` (the `Chat` class of the
insta.js direct-message wrapper) and verification of the spec's claims
about it.

Modelling conventions:
* A `@discordjs/collection` `Collection` extends the JS `Map`: an
  insertion-ordered map with unique keys.  We model it as an association
  list `List (String × β)` in insertion order.  `Map.get` is `mapGet`,
  `Map.set` is `mapSet` (which replaces the binding in place when the key
  is present and appends otherwise, exactly like `Map.set`), `Map.delete`
  is `mapDelete`, `Map.has k` is `(mapGet m k).isSome`, and
  `Collection.first()` is `collFirst`.
* JS object identity (needed because a `User` cached in
  `client.cache.users` is shared, and `user._patch` mutates it in place for
  every holder) is modelled with an explicit heap: `User` objects live in a
  `UserHeap` and collections hold references (`Nat`) into it.
* Timers (`setTimeout` / `setInterval` / `clearTimeout` / `clearInterval`)
  are modelled by a `TimerSys` that allocates fresh handles and keeps the
  set of currently scheduled one-shot and repeating handles.  In Node.js,
  `clearTimeout` and `clearInterval` are interchangeable (both cancel any
  `Timeout` object), so `clearTimer` removes the handle from both lists.
* Promises returned by the send operations: the executor receives only
  `resolve` (never `reject`), and the `.then` chains carry no rejection
  handler, so the possible fates of the returned promise are: a `resolve`
  call, or no settlement at all.  Each send is given a promise identifier
  `p : Nat`; `resolve` calls are recorded as `(p, message)` pairs.
-/

/-- `Map.get`: first (and, for maps built by `mapSet`/`mapDelete`, only)
binding of the key. -/
def mapGet {β : Type} : List (String × β) → String → Option β
  | [], _ => none
  | (k', v) :: rest, k => if k' = k then some v else mapGet rest k

/-- `Map.set`: replace the existing binding in place, or append a new one. -/
def mapSet {β : Type} (k : String) (v : β) : List (String × β) → List (String × β)
  | [] => [(k, v)]
  | (k', v') :: rest => if k' = k then (k', v) :: rest else (k', v') :: mapSet k v rest

/-- `Map.delete`: remove the binding of the key (maps have unique keys, so
removing every pair with that key is the same operation). -/
def mapDelete {β : Type} (k : String) (m : List (String × β)) : List (String × β) :=
  m.filter (fun p => p.1 ≠ k)

/-- `Collection.first()`: the value of the oldest-inserted entry, if any. -/
def collFirst {β : Type} (m : List (String × β)) : Option β :=
  m.head?.map (fun p => p.2)

/-- Raw user record inside a thread snapshot (`data.users[i]` /
`data.left_users[i]`): identified by `pk`, carrying profile data. -/
structure RawUser where
  pk : String
  username : String
deriving DecidableEq

/-- Raw message item inside a thread snapshot (`data.items[i]`). -/
structure RawItem where
  item_id : String
  payload : String
deriving DecidableEq

/-- A raw thread snapshot, the argument of `Chat._patch` (shape from the
constructor's `data` parameter and the fields `_patch` reads). -/
structure SnapshotData where
  users : List RawUser
  left_users : List RawUser
  items : List RawItem
  admin_user_ids : List String
  last_activity_at : Int
  muted : Bool
  is_pin : Bool
  named : Bool
  pending : Bool
  is_group : Bool
  thread_type : String
deriving DecidableEq

/-- Modelled from the spec: the `User` entity (`User.js` is not under
`src/`); it is owned by the shared cache and `User._patch` applies a
field-level merge of the raw record onto the object, in place. -/
structure User where
  id : String
  username : String
deriving DecidableEq

/-- Modelled from the spec: `new User(client, raw)` constructs a user from
a raw record. -/
def User.ofRaw (raw : RawUser) : User :=
  { id := raw.pk, username := raw.username }

/-- Modelled from the spec: `user._patch(raw)` overwrites the object's
fields from the raw record (field-level merge, last write wins). -/
def User.patchRaw (_u : User) (raw : RawUser) : User :=
  { id := raw.pk, username := raw.username }

/-- Modelled from the spec: the `Message` entity (`Message.js` is not under
`src/`); `new Message(client, threadID, item)` constructs a fresh message
owned by the chat, from the thread id and the raw item. -/
structure Message where
  chatID : String
  id : String
  data : RawItem
deriving DecidableEq

def Message.ofItem (threadID : String) (item : RawItem) : Message :=
  { chatID := threadID, id := item.item_id, data := item }

/-- The heap of `User` objects: references (`Nat`) to objects, plus the
next fresh reference.  Models JS object identity for shared, in-place
mutable users. -/
structure UserHeap where
  objs : List (Nat × User)
  next : Nat
deriving DecidableEq

/-- Dereference: first object bound to the reference. -/
def refGet : List (Nat × User) → Nat → Option User
  | [], _ => none
  | (r', u) :: rest, r => if r' = r then some u else refGet rest r

def heapLookup (h : UserHeap) (r : Nat) : Option User :=
  refGet h.objs r

/-- Apply `f` to every object bound to reference `r` (a heap binds each
reference once, so this is the single in-place mutation). -/
def objsUpdate (r : Nat) (f : User → User) : List (Nat × User) → List (Nat × User)
  | [] => []
  | (r', u) :: rest =>
      if r' = r then (r', f u) :: objsUpdate r f rest
      else (r', u) :: objsUpdate r f rest

/-- In-place mutation of the object behind reference `r` (visible to every
holder of `r`). -/
def heapUpdate (h : UserHeap) (r : Nat) (f : User → User) : UserHeap :=
  { h with objs := objsUpdate r f h.objs }

/-- Allocation of a fresh object (`new User(...)`): returns the new
reference and the grown heap. -/
def heapAlloc (h : UserHeap) (u : User) : Nat × UserHeap :=
  (h.next, { objs := h.objs ++ [(h.next, u)], next := h.next + 1 })

/-- The slice of `client` state the chat touches: the process-wide shared
user cache `client.cache.users` (pk → reference) and the object heap. -/
structure UserCacheState where
  cacheUsers : List (String × Nat)
  heap : UserHeap
deriving DecidableEq

/-- The `Chat` object's own state.  Collections of users hold references
into the shared heap; `_sentMessagesPromises` maps an item id to the
promise (identified by a `Nat`) whose `resolve` it stores; timer fields
hold scheduler handles. -/
structure Chat where
  id : String
  messages : List (String × Message)
  users : List (String × Nat)
  leftUsers : List (String × Nat)
  typing : Bool
  disableTypingOnSend : Option Bool   -- `_disableTypingOnSend`, initially null
  stopTypingTimeout : Option Nat      -- `_stopTypingTimeout`, timer handle
  keepTypingAliveInterval : Option Nat -- `_keepTypingAliveInterval`, timer handle
  sentMessagesPromises : List (String × Nat) -- `_sentMessagesPromises`
  adminUserIDs : List String
  lastActivityAt : Int
  muted : Bool
  isPin : Bool
  named : Bool
  pending : Bool
  isGroup : Bool
  type : String
deriving DecidableEq

/-- One iteration of the `forEach` bodies at `Chat.js:60-68` (members) and
`Chat.js:70-78` (departed members); the two blocks are identical except for
the target collection, which is the accumulator's second component here.

```js
const exisiting = this.client.cache.users.get(user.pk)
if (exisiting) {
    coll.set(user.pk, exisiting)
    coll.get(user.pk)._patch(user)        // mutates the shared object
} else {
    coll.set(user.pk, new User(this.client, user))
    this.client.cache.users.set(user.pk, coll.get(user.pk))
}
```
`coll.get(user.pk)` right after `coll.set(user.pk, x)` evaluates to `x`
(by `mapGet_mapSet_self`), so it is inlined. -/
def mergeUserEntry (acc : UserCacheState × List (String × Nat)) (user : RawUser) :
    UserCacheState × List (String × Nat) :=
  match mapGet acc.1.cacheUsers user.pk with
  | some exisiting =>
      ({ acc.1 with
          heap := heapUpdate acc.1.heap exisiting (fun u => User.patchRaw u user) },
       mapSet user.pk exisiting acc.2)
  | none =>
      ({ acc.1 with
          heap := (heapAlloc acc.1.heap (User.ofRaw user)).2,
          cacheUsers :=
            mapSet user.pk (heapAlloc acc.1.heap (User.ofRaw user)).1 acc.1.cacheUsers },
       mapSet user.pk (heapAlloc acc.1.heap (User.ofRaw user)).1 acc.2)

/-- `Chat._patch(data)` (`Chat.js:59-123`): merge the member list, the
departed-member list and the message items into the local collections and
the shared cache, then overwrite the scalar thread attributes from the
snapshot. -/
def Chat.patchChat (st : UserCacheState) (c : Chat) (data : SnapshotData) :
    UserCacheState × Chat :=
  let r1 := data.users.foldl mergeUserEntry (st, c.users)
  let r2 := data.left_users.foldl mergeUserEntry (r1.1, c.leftUsers)
  let messages := data.items.foldl
    (fun ms item => mapSet item.item_id (Message.ofItem c.id item) ms) c.messages
  (r2.1,
   { c with
      users := r1.2,
      leftUsers := r2.2,
      messages := messages,
      adminUserIDs := data.admin_user_ids,
      lastActivityAt := data.last_activity_at,
      muted := data.muted,
      isPin := data.is_pin,
      named := data.named,
      pending := data.pending,
      isGroup := data.is_group,
      type := data.thread_type })

/-- The `Chat` constructor (`Chat.js:15-53`): initialise the collections
empty, `typing` false, the timer fields and the disable-on-send flag null,
the waiter map empty, then `this._patch(data)` (which assigns every scalar
attribute). -/
def Chat.construct (threadID : String) (st : UserCacheState) (data : SnapshotData) :
    UserCacheState × Chat :=
  Chat.patchChat st
    { id := threadID, messages := [], users := [], leftUsers := [],
      typing := false, disableTypingOnSend := none, stopTypingTimeout := none,
      keepTypingAliveInterval := none, sentMessagesPromises := [],
      adminUserIDs := [], lastActivityAt := 0, muted := false, isPin := false,
      named := false, pending := false, isGroup := false, type := "" } data

/-- An `indicateActivity` realtime signal (`{ threadId, isActive }`). -/
inductive Signal where
  | isActive (threadId : String)
  | isInactive (threadId : String)
deriving DecidableEq

/-- The timer scheduler: fresh handles and the currently scheduled
one-shot (`setTimeout`) and repeating (`setInterval`) timers, each a
`(handle, delay)` pair. -/
structure TimerSys where
  nextHandle : Nat
  activeTimeouts : List (Nat × Nat)
  activeIntervals : List (Nat × Nat)
deriving DecidableEq

/-- `setTimeout(cb, delay)`: schedule a fresh one-shot handle. -/
def setTimeoutSys (ts : TimerSys) (delay : Nat) : Nat × TimerSys :=
  (ts.nextHandle,
   { ts with nextHandle := ts.nextHandle + 1,
             activeTimeouts := ts.activeTimeouts ++ [(ts.nextHandle, delay)] })

/-- `setInterval(cb, delay)`: schedule a fresh repeating handle. -/
def setIntervalSys (ts : TimerSys) (delay : Nat) : Nat × TimerSys :=
  (ts.nextHandle,
   { ts with nextHandle := ts.nextHandle + 1,
             activeIntervals := ts.activeIntervals ++ [(ts.nextHandle, delay)] })

/-- `clearTimeout(h)` / `clearInterval(h)`: in Node.js the two are
interchangeable — either cancels any scheduled `Timeout` object — so both
are modelled by removing the handle from both active lists. -/
def clearTimer (h : Nat) (ts : TimerSys) : TimerSys :=
  { ts with activeTimeouts := ts.activeTimeouts.filter (fun x => x.1 ≠ h),
            activeIntervals := ts.activeIntervals.filter (fun x => x.1 ≠ h) }

/-- `Chat._keepTypingAlive` (`Chat.js:155-162`): if still typing, send an
is-active signal; otherwise clear the stored keep-alive interval handle. -/
def Chat.keepTypingAlive (c : Chat) (ts : TimerSys) : Chat × TimerSys × List Signal :=
  if c.typing then
    (c, ts, [Signal.isActive c.id])
  else
    match c.keepTypingAliveInterval with
    | some h => (c, clearTimer h ts, [])
    | none => (c, ts, [])

/-- `Chat.startTyping({ duration, disableOnSend })` (`Chat.js:171-180`):
set `typing`, send an is-active signal, store the disable-on-send flag
(default true), then schedule — without cancelling any previous handle — a
one-shot stop-typing timer (`duration || 10000`) and a repeating 9s
keep-alive timer, overwriting the stored handles. -/
def Chat.startTyping (c : Chat) (ts : TimerSys)
    (duration : Option Nat) (disableOnSend : Option Bool) :
    Chat × TimerSys × List Signal :=
  let c := { c with typing := true }
  let sigs := [Signal.isActive c.id]
  let c := { c with disableTypingOnSend := some (disableOnSend.getD true) }
  -- `(duration || 10000)`: undefined and 0 are both falsy in JS
  let a1 := setTimeoutSys ts
    (match duration with
     | some d => if d = 0 then 10000 else d
     | none => 10000)
  let c := { c with stopTypingTimeout := some a1.1 }
  let a2 := setIntervalSys a1.2 9000
  let c := { c with keepTypingAliveInterval := some a2.1 }
  (c, a2.2, sigs)

/-- `Chat.stopTyping()` (`Chat.js:186-193`):
`if (this._keepTypingAliveInterval) clearTimeout(this._keepTypingAliveInterval)`
— note: it clears the stored keep-alive *interval* handle, not
`_stopTypingTimeout` — then sets `typing` false and sends an is-inactive
signal. -/
def Chat.stopTyping (c : Chat) (ts : TimerSys) : Chat × TimerSys × List Signal :=
  let ts :=
    match c.keepTypingAliveInterval with
    | some h => clearTimer h ts
    | none => ts
  let c := { c with typing := false }
  (c, ts, [Signal.isInactive c.id])

/-- Errors of the wrapped client's broadcast calls. -/
structure NetError where
  code : Nat
deriving DecidableEq

/-- Modelled from the spec: `AttachmentError` (the `Attachment` class is
not under `src/`) — raised when a photo/voice source cannot be resolved
into bytes, e.g. an unreadable local path. -/
structure AttachmentError where
  code : Nat
deriving DecidableEq

/-- Errors a send operation could in principle surface. -/
inductive SendError where
  | net (e : NetError)
  | attachment (e : AttachmentError)
deriving DecidableEq

/-- Outcome of the single broadcast network call a send issues: either an
acknowledgement `{ item_id }` or a failure. -/
inductive BroadcastResult where
  | ok (item_id : String)
  | err (e : NetError)
deriving DecidableEq

/-- Observable network actions of a send operation. -/
inductive SendEffect where
  | broadcastText (content : String)
  | broadcastVoice
  | broadcastPhoto
  | keepAliveSignal (threadId : String)
deriving DecidableEq

/-- The complete observable result of a send call: the chat state after
the response handling, the network effects in order, and the `resolve` /
`reject` calls made on the returned promise (`(promiseId, payload)`).
The code never calls `reject` (the executors only bind `resolve` and the
`.then` chains have no rejection handler), so `rejections` can only come
out empty — a `resolve` call, or no settlement at all, are the only fates
of the returned promise. -/
structure SendResult where
  chat : Chat
  effects : List SendEffect
  resolutions : List (Nat × Message)
  rejections : List (Nat × SendError)
deriving DecidableEq

/-- The shared `.then` handler body of the three sends
(`Chat.js:205-212`, `236-243`, `262-269`): on `{ item_id: itemID }`, run a
keep-alive tick when typing with disable-on-send unset, register the
waiter `resolve` under `itemID`, and if `messages` already holds `itemID`,
delete the waiter and resolve immediately with that message. -/
def broadcastThen (c : Chat) (p : Nat) (itemID : String) :
    Chat × List SendEffect × List (Nat × Message) :=
  let keepAlive :=
    if c.typing && !(c.disableTypingOnSend == some true) then
      [SendEffect.keepAliveSignal c.id]
    else []
  let c := { c with sentMessagesPromises := mapSet itemID p c.sentMessagesPromises }
  match mapGet c.messages itemID with
  | some m =>
      ({ c with sentMessagesPromises := mapDelete itemID c.sentMessagesPromises },
       keepAlive, [(p, m)])
  | none => (c, keepAlive, [])

/-- `Chat.sendMessage(content)` (`Chat.js:203-214`): issue `broadcastText`;
on acknowledgement run the `.then` handler; on failure nothing runs — the
executor used no `reject` and the `.then` has no rejection handler, so the
returned promise never settles and the state is untouched. `p` identifies
the returned promise; `net` is the network's response to the broadcast. -/
def Chat.sendMessage (c : Chat) (p : Nat) (content : String) (net : BroadcastResult) :
    SendResult :=
  match net with
  | BroadcastResult.ok itemID =>
      let r := broadcastThen c p itemID
      { chat := r.1, effects := SendEffect.broadcastText content :: r.2.1,
        resolutions := r.2.2, rejections := [] }
  | BroadcastResult.err _ =>
      { chat := c, effects := [SendEffect.broadcastText content],
        resolutions := [], rejections := [] }

/-- `Chat.sendVoice(buffer)` (`Chat.js:234-245`): same shape as
`sendMessage` with `broadcastVoice`. -/
def Chat.sendVoice (c : Chat) (p : Nat) (net : BroadcastResult) : SendResult :=
  match net with
  | BroadcastResult.ok itemID =>
      let r := broadcastThen c p itemID
      { chat := r.1, effects := SendEffect.broadcastVoice :: r.2.1,
        resolutions := r.2.2, rejections := [] }
  | BroadcastResult.err _ =>
      { chat := c, effects := [SendEffect.broadcastVoice],
        resolutions := [], rejections := [] }

/-- `Chat.sendPhoto(attachment)` (`Chat.js:256-272`): wrap the argument in
an `Attachment` and run `attachment._verify()`; only the fulfilment path
is handled (`.then` with no rejection handler), so on verification failure
no broadcast is issued, no state changes, and the returned promise never
settles (and in particular is not rejected).  `verify` is the outcome of
`_verify()`; `net` is the network's response if the broadcast is issued. -/
def Chat.sendPhoto (c : Chat) (p : Nat) (verify : Except AttachmentError Unit)
    (net : BroadcastResult) : SendResult :=
  match verify with
  | Except.error _ =>
      { chat := c, effects := [], resolutions := [], rejections := [] }
  | Except.ok _ =>
      match net with
      | BroadcastResult.ok itemID =>
          let r := broadcastThen c p itemID
          { chat := r.1, effects := SendEffect.broadcastPhoto :: r.2.1,
            resolutions := r.2.2, rejections := [] }
      | BroadcastResult.err _ =>
          { chat := c, effects := [SendEffect.broadcastPhoto],
            resolutions := [], rejections := [] }

/-- Modelled from the spec: the realtime-message handler adjacent to this
core (it lives outside `src/`; the spec: "the waiter remains until a
future merge inserts that identifier, at which point the merge path (or an
adjacent realtime-message handler, external to this core) must resolve and
remove the waiter").  On a pushed item it constructs the `Message`, merges
it into `messages`, and if a pending-send waiter is registered under the
item identifier it resolves that waiter with the message and removes the
entry. -/
def handleRealtimeItem (c : Chat) (item : RawItem) : Chat × List (Nat × Message) :=
  let m := Message.ofItem c.id item
  let c := { c with messages := mapSet item.item_id m c.messages }
  match mapGet c.sentMessagesPromises item.item_id with
  | some p =>
      ({ c with sentMessagesPromises := mapDelete item.item_id c.sentMessagesPromises },
       [(p, m)])
  | none => (c, [])

/-- The external per-client chat caches `client.cache.chats` and
`client.cache.pendingChats` touched by `approve`. -/
structure ChatCaches where
  chats : List (String × Chat)
  pendingChats : List (String × Chat)
deriving DecidableEq

/-- Observable actions of `approve`, in program order. -/
inductive ApproveEffect where
  | setPendingFalse
  | netApprove (threadId : String)
  | emitMessageCreate (payload : Option Message)
deriving DecidableEq

/-- `Chat.approve()` (`Chat.js:129-135`): set `pending` false, then await
the network approve call, then ensure the chat is in `cache.chats`, delete
it from `cache.pendingChats`, and emit one `messageCreate` event carrying
`this.messages.first()`. -/
def Chat.approve (c : Chat) (caches : ChatCaches) :
    Chat × ChatCaches × List ApproveEffect :=
  let c := { c with pending := false }
  let caches :=
    if (mapGet caches.chats c.id).isSome then caches
    else { caches with chats := mapSet c.id c caches.chats }
  let caches := { caches with pendingChats := mapDelete c.id caches.pendingChats }
  (c, caches,
   [ApproveEffect.setPendingFalse, ApproveEffect.netApprove c.id,
    ApproveEffect.emitMessageCreate (collFirst c.messages)])

/-- Concrete fixtures used to evaluate the model at specific inputs. -/
def rawU1 : RawUser := { pk := "u1", username := "alice" }

def rawU2 : RawUser := { pk := "u2", username := "bob" }

def item1 : RawItem := { item_id := "m1", payload := "hi" }

def emptySnapshot : SnapshotData :=
  { users := [], left_users := [], items := [], admin_user_ids := [],
    last_activity_at := 0, muted := false, is_pin := false, named := false,
    pending := false, is_group := false, thread_type := "private" }

def st0 : UserCacheState := { cacheUsers := [], heap := { objs := [], next := 0 } }

def ts0 : TimerSys := { nextHandle := 0, activeTimeouts := [], activeIntervals := [] }

/-- A chat constructed from an empty snapshot. -/
def chat0 : Chat := (Chat.construct "t1" st0 emptySnapshot).2

/-- A snapshot listing one member, one departed member and one item. -/
def snapFull : SnapshotData :=
  { emptySnapshot with users := [rawU1], left_users := [rawU2], items := [item1] }

def stW : UserCacheState := (Chat.construct "t1" st0 snapFull).1

def chatW : Chat := (Chat.construct "t1" st0 snapFull).2

def snapMemberU1 : SnapshotData := { emptySnapshot with users := [rawU1] }

def snapLeftU1 : SnapshotData := { emptySnapshot with left_users := [rawU1] }

/-- Detects a `messageCreate` emission among `approve`'s effects. -/
def isEmitEffect : ApproveEffect → Bool
  | ApproveEffect.emitMessageCreate _ => true
  | _ => false

/- ------------------------------------------------------------------ -/
/- Helper lemmas about the map, heap and fold primitives.             -/
/- ------------------------------------------------------------------ -/

@[simp] theorem mapGet_mapSet_self {β : Type} (k : String) (v : β) (m : List (String × β)) :
    mapGet (mapSet k v m) k = some v := by
  induction m with
  | nil => simp [mapGet, mapSet]
  | cons hd tl ih =>
      obtain ⟨k', v'⟩ := hd
      by_cases h : k' = k <;> simp [mapGet, mapSet, h, ih]

theorem mapGet_mapSet_ne {β : Type} {k k' : String} (v : β) (m : List (String × β))
    (h : k' ≠ k) : mapGet (mapSet k v m) k' = mapGet m k' := by
  induction m with
  | nil => simp [mapGet, mapSet, Ne.symm h]
  | cons hd tl ih =>
      obtain ⟨k0, v0⟩ := hd
      by_cases h0 : k0 = k
      · subst h0
        simp [mapGet, mapSet, Ne.symm h]
      · simp [mapGet, mapSet, h0, ih]

theorem isSome_mapGet_mapSet {β : Type} {k' : String} (k : String) (v : β)
    (m : List (String × β)) (h : (mapGet m k').isSome) :
    (mapGet (mapSet k v m) k').isSome := by
  by_cases hk : k' = k
  · subst hk; simp
  · rwa [mapGet_mapSet_ne v m hk]

@[simp] theorem mapGet_mapDelete_self {β : Type} (k : String) (m : List (String × β)) :
    mapGet (mapDelete k m) k = none := by
  induction m with
  | nil => simp [mapGet, mapDelete]
  | cons hd tl ih =>
      obtain ⟨k0, v0⟩ := hd
      by_cases h0 : k0 = k <;>
        simp_all [mapGet, mapDelete, h0, List.filter]

theorem refGet_objsUpdate (l : List (Nat × User)) (r : Nat) (f : User → User) :
    refGet (objsUpdate r f l) r = (refGet l r).map f := by
  induction l with
  | nil => simp [objsUpdate, refGet]
  | cons hd tl ih =>
      obtain ⟨r0, u0⟩ := hd
      by_cases h0 : r0 = r <;> simp [objsUpdate, refGet, h0, ih]

theorem heapLookup_heapUpdate (h : UserHeap) (r : Nat) (f : User → User) :
    heapLookup (heapUpdate h r f) r = (heapLookup h r).map f :=
  refGet_objsUpdate h.objs r f

theorem refGet_append_fresh (l : List (Nat × User)) (n : Nat) (u : User)
    (hwf : ∀ p ∈ l, p.1 < n) :
    refGet (l ++ [(n, u)]) n = some u := by
  induction l with
  | nil => simp [refGet]
  | cons hd tl ih =>
      obtain ⟨r0, u0⟩ := hd
      have hne : r0 ≠ n := Nat.ne_of_lt (hwf (r0, u0) (List.mem_cons_self _ _))
      simp only [List.cons_append, refGet, if_neg hne]
      exact ih (fun p hp => hwf p (List.mem_cons_of_mem _ hp))

theorem heapLookup_alloc (h : UserHeap) (u : User)
    (hwf : ∀ p ∈ h.objs, p.1 < h.next) :
    heapLookup (heapAlloc h u).2 h.next = some u :=
  refGet_append_fresh h.objs h.next u hwf

/-- Each member-merge iteration only `set`s into the target collection:
a key present before is present after. -/
theorem isSome_mergeUserEntry (acc : UserCacheState × List (String × Nat))
    (u : RawUser) {k : String} (h : (mapGet acc.2 k).isSome) :
    (mapGet (mergeUserEntry acc u).2 k).isSome := by
  cases hm : mapGet acc.1.cacheUsers u.pk
  all_goals
    simp only [mergeUserEntry, hm]
    exact isSome_mapGet_mapSet _ _ _ h

/-- The just-processed entry's key is present in the target collection. -/
theorem isSome_mergeUserEntry_self (acc : UserCacheState × List (String × Nat))
    (u : RawUser) : (mapGet (mergeUserEntry acc u).2 u.pk).isSome := by
  cases hm : mapGet acc.1.cacheUsers u.pk
  all_goals simp [mergeUserEntry, hm]

/-- Folding the member-merge over a list never removes keys from the
target collection. -/
theorem isSome_mergeUserFold (l : List RawUser) :
    ∀ (acc : UserCacheState × List (String × Nat)) {k : String},
      (mapGet acc.2 k).isSome →
      (mapGet (l.foldl mergeUserEntry acc).2 k).isSome := by
  induction l with
  | nil =>
      intro acc k h
      simpa using h
  | cons u rest ih =>
      intro acc k h
      simp only [List.foldl_cons]
      exact ih _ (isSome_mergeUserEntry acc u h)

/-- Folding the member-merge over a list inserts every listed key. -/
theorem isSome_mergeUserFold_mem (l : List RawUser) :
    ∀ (acc : UserCacheState × List (String × Nat)) (u : RawUser), u ∈ l →
      (mapGet (l.foldl mergeUserEntry acc).2 u.pk).isSome := by
  induction l with
  | nil =>
      intro acc u hu
      cases hu
  | cons v rest ih =>
      intro acc u hu
      simp only [List.foldl_cons]
      rcases List.mem_cons.mp hu with h | h
      · subst h
        exact isSome_mergeUserFold rest _ (isSome_mergeUserEntry_self acc u)
      · exact ih _ u h

/-- Folding item insertion over a list never removes message keys. -/
theorem isSome_itemsFold (cid : String) (l : List RawItem) :
    ∀ (ms : List (String × Message)) {k : String},
      (mapGet ms k).isSome →
      (mapGet (l.foldl (fun ms item => mapSet item.item_id (Message.ofItem cid item) ms) ms) k).isSome := by
  induction l with
  | nil =>
      intro ms k h
      simpa using h
  | cons it rest ih =>
      intro ms k h
      simp only [List.foldl_cons]
      exact ih _ (isSome_mapGet_mapSet _ _ _ h)

/- ------------------------------------------------------------------ -/
/- Claim theorems.                                                     -/
/- ------------------------------------------------------------------ -/

/-- Claim C7: the merge is idempotent on scalar thread attributes — for
every snapshot `d` and state, applying `Chat.patchChat` with `d` twice
leaves `adminUserIDs`, `lastActivityAt`, `muted`, `isPin`, `named`,
`pending`, `isGroup` and `type` identical to applying it once, and each
equals the corresponding field of `d` (last merge wins). -/
theorem patch_scalar_idempotent (st : UserCacheState) (c : Chat) (d : SnapshotData) :
    ((Chat.patchChat (Chat.patchChat st c d).1 (Chat.patchChat st c d).2 d).2.adminUserIDs
        = (Chat.patchChat st c d).2.adminUserIDs ∧
     (Chat.patchChat (Chat.patchChat st c d).1 (Chat.patchChat st c d).2 d).2.lastActivityAt
        = (Chat.patchChat st c d).2.lastActivityAt ∧
     (Chat.patchChat (Chat.patchChat st c d).1 (Chat.patchChat st c d).2 d).2.muted
        = (Chat.patchChat st c d).2.muted ∧
     (Chat.patchChat (Chat.patchChat st c d).1 (Chat.patchChat st c d).2 d).2.isPin
        = (Chat.patchChat st c d).2.isPin ∧
     (Chat.patchChat (Chat.patchChat st c d).1 (Chat.patchChat st c d).2 d).2.named
        = (Chat.patchChat st c d).2.named ∧
     (Chat.patchChat (Chat.patchChat st c d).1 (Chat.patchChat st c d).2 d).2.pending
        = (Chat.patchChat st c d).2.pending ∧
     (Chat.patchChat (Chat.patchChat st c d).1 (Chat.patchChat st c d).2 d).2.isGroup
        = (Chat.patchChat st c d).2.isGroup ∧
     (Chat.patchChat (Chat.patchChat st c d).1 (Chat.patchChat st c d).2 d).2.type
        = (Chat.patchChat st c d).2.type) ∧
    ((Chat.patchChat st c d).2.adminUserIDs = d.admin_user_ids ∧
     (Chat.patchChat st c d).2.lastActivityAt = d.last_activity_at ∧
     (Chat.patchChat st c d).2.muted = d.muted ∧
     (Chat.patchChat st c d).2.isPin = d.is_pin ∧
     (Chat.patchChat st c d).2.named = d.named ∧
     (Chat.patchChat st c d).2.pending = d.pending ∧
     (Chat.patchChat st c d).2.isGroup = d.is_group ∧
     (Chat.patchChat st c d).2.type = d.thread_type) :=
  ⟨⟨rfl, rfl, rfl, rfl, rfl, rfl, rfl, rfl⟩, ⟨rfl, rfl, rfl, rfl, rfl, rfl, rfl, rfl⟩⟩

/-- Claim C9: `approve` produces a `pending = false` state, ensures the
thread is in the active-chats cache and absent from the pending-chats
cache, and its effect trace is exactly: set `pending` false, then the
network approve call, then one `messageCreate` emission whose payload is
the oldest-inserted message of `messages` (the setting of `pending` thus
precedes the network call, and there is exactly one emission). -/
theorem approve_behavior (c : Chat) (k : ChatCaches) :
    (Chat.approve c k).1.pending = false ∧
    (mapGet (Chat.approve c k).2.1.chats c.id).isSome = true ∧
    mapGet (Chat.approve c k).2.1.pendingChats c.id = none ∧
    (Chat.approve c k).2.2
      = [ApproveEffect.setPendingFalse, ApproveEffect.netApprove c.id,
         ApproveEffect.emitMessageCreate (collFirst c.messages)] ∧
    ((Chat.approve c k).2.2.countP (fun e => isEmitEffect e)) = 1 := by
  unfold Chat.approve
  by_cases h : (mapGet k.chats c.id).isSome
  · simp [h, isEmitEffect]
  · simp [h, isEmitEffect]

/-- Claim C3 counterexample: on a failed broadcast the returned operation
is NOT rejected with the error — no rejection (and no resolution) ever
happens, and the state is untouched: the `.then` chain has no rejection
handler and the executor never calls `reject`, so the promise hangs. -/
theorem send_err_counterexample :
    (Chat.sendMessage chat0 7 "hey" (BroadcastResult.err { code := 500 })).rejections = [] ∧
    (Chat.sendMessage chat0 7 "hey" (BroadcastResult.err { code := 500 })).resolutions = [] ∧
    (Chat.sendMessage chat0 7 "hey" (BroadcastResult.err { code := 500 })).chat = chat0 ∧
    (Chat.sendMessage chat0 7 "hey" (BroadcastResult.err { code := 500 })).rejections
      ≠ [(7, SendError.net { code := 500 })] := by
  refine ⟨rfl, rfl, rfl, ?_⟩
  decide

/-- Claim C3 (amended): if the underlying broadcast call fails, the
operation returned by `sendMessage` / `sendVoice` / `sendPhoto` never
settles — it is neither resolved nor rejected, the error is not surfaced
to the caller, no state is mutated, and no retry happens (exactly one
broadcast effect is issued). -/
theorem send_err_never_settles (c : Chat) (p : Nat) (content : String) (e : NetError) :
    Chat.sendMessage c p content (BroadcastResult.err e)
      = { chat := c, effects := [SendEffect.broadcastText content],
          resolutions := [], rejections := [] } ∧
    Chat.sendVoice c p (BroadcastResult.err e)
      = { chat := c, effects := [SendEffect.broadcastVoice],
          resolutions := [], rejections := [] } ∧
    Chat.sendPhoto c p (Except.ok ()) (BroadcastResult.err e)
      = { chat := c, effects := [SendEffect.broadcastPhoto],
          resolutions := [], rejections := [] } :=
  ⟨rfl, rfl, rfl⟩

/-- Claim C4 counterexample: when the attachment cannot be resolved into
bytes, `sendPhoto` issues no broadcast and mutates no state — but the
returned operation does NOT fail with an `AttachmentError`: no rejection
(nor any settlement) ever happens, because `_verify()`'s rejection is
unhandled. -/
theorem sendPhoto_attachment_counterexample :
    (Chat.sendPhoto chat0 7 (Except.error { code := 1 }) (BroadcastResult.ok "m1")).rejections = [] ∧
    (Chat.sendPhoto chat0 7 (Except.error { code := 1 }) (BroadcastResult.ok "m1")).effects = [] ∧
    (Chat.sendPhoto chat0 7 (Except.error { code := 1 }) (BroadcastResult.ok "m1")).resolutions = [] ∧
    (Chat.sendPhoto chat0 7 (Except.error { code := 1 }) (BroadcastResult.ok "m1")).chat = chat0 ∧
    (Chat.sendPhoto chat0 7 (Except.error { code := 1 }) (BroadcastResult.ok "m1")).rejections
      ≠ [(7, SendError.attachment { code := 1 })] := by
  refine ⟨rfl, rfl, rfl, rfl, ?_⟩
  decide

/-- Claim C4 (amended): a `sendPhoto` whose attachment source cannot be
resolved into bytes issues no broadcast call and mutates no local state,
but the returned operation never settles (it is not rejected with the
`AttachmentError`). -/
theorem sendPhoto_verify_fail_frame (c : Chat) (p : Nat) (e : AttachmentError)
    (net : BroadcastResult) :
    Chat.sendPhoto c p (Except.error e) net
      = { chat := c, effects := [], resolutions := [], rejections := [] } :=
  rfl

/-- Claim C5 (code bug, evaluated at the failing input): after
`startTyping` (which schedules one-shot handle 0 and interval handle 1)
an immediate `stopTyping` sets `typing` false, sends one is-inactive
signal and clears the keep-alive interval — but the one-shot duration
timer (handle 0) is STILL scheduled, because `stopTyping` passes
`_keepTypingAliveInterval`, not `_stopTypingTimeout`, to `clearTimeout`. -/
theorem stopTyping_leaves_oneshot_scheduled :
    (Chat.startTyping chat0 ts0 none none).1.stopTypingTimeout = some 0 ∧
    (Chat.stopTyping (Chat.startTyping chat0 ts0 none none).1
        (Chat.startTyping chat0 ts0 none none).2.1).2.1.activeTimeouts = [(0, 10000)] ∧
    (Chat.stopTyping (Chat.startTyping chat0 ts0 none none).1
        (Chat.startTyping chat0 ts0 none none).2.1).2.1.activeIntervals = [] ∧
    (Chat.stopTyping (Chat.startTyping chat0 ts0 none none).1
        (Chat.startTyping chat0 ts0 none none).2.1).1.typing = false ∧
    (Chat.stopTyping (Chat.startTyping chat0 ts0 none none).1
        (Chat.startTyping chat0 ts0 none none).2.1).2.2 = [Signal.isInactive "t1"] := by
  decide

/-- Claim C6 counterexample: calling `startTyping` twice in a row leaves
TWO scheduled one-shot timers and TWO scheduled repeating timers — the
second call cancels nothing, contradicting "at most one one-shot timer and
at most one repeating timer are active per chat". -/
theorem startTyping_twice_counterexample :
    (Chat.startTyping (Chat.startTyping chat0 ts0 none none).1
        (Chat.startTyping chat0 ts0 none none).2.1 none none).2.1.activeTimeouts.length = 2 ∧
    (Chat.startTyping (Chat.startTyping chat0 ts0 none none).1
        (Chat.startTyping chat0 ts0 none none).2.1 none none).2.1.activeIntervals.length = 2 := by
  decide

/-- Claim C6 (amended): re-entering `startTyping` schedules one fresh
one-shot timer (`duration || 10000`) and one fresh 9s repeating timer and
overwrites the stored handles, but cancels no previously scheduled timer:
every timer already active stays active (stacking occurs). -/
theorem startTyping_stacks_timers (c : Chat) (ts : TimerSys)
    (dur : Option Nat) (dis : Option Bool) :
    (Chat.startTyping c ts dur dis).2.1.activeTimeouts
      = ts.activeTimeouts ++ [(ts.nextHandle,
          match dur with
          | some d => if d = 0 then 10000 else d
          | none => 10000)] ∧
    (Chat.startTyping c ts dur dis).2.1.activeIntervals
      = ts.activeIntervals ++ [(ts.nextHandle + 1, 9000)] ∧
    (Chat.startTyping c ts dur dis).1.stopTypingTimeout = some ts.nextHandle ∧
    (Chat.startTyping c ts dur dis).1.keepTypingAliveInterval = some (ts.nextHandle + 1) ∧
    (Chat.startTyping c ts dur dis).1.typing = true ∧
    (Chat.startTyping c ts dur dis).2.2 = [Signal.isActive c.id] :=
  ⟨rfl, rfl, rfl, rfl, rfl, rfl⟩

/-- Claim C2 counterexample: merge a snapshot listing "u1" as a member,
then a snapshot listing "u1" as departed — "u1" is then present in BOTH
`users` and `leftUsers`, because `_patch` never removes an identifier from
the opposite collection. -/
theorem member_left_overlap_counterexample :
    (mapGet (Chat.patchChat (Chat.patchChat st0 chat0 snapMemberU1).1
        (Chat.patchChat st0 chat0 snapMemberU1).2 snapLeftU1).2.users "u1").isSome = true ∧
    (mapGet (Chat.patchChat (Chat.patchChat st0 chat0 snapMemberU1).1
        (Chat.patchChat st0 chat0 snapMemberU1).2 snapLeftU1).2.leftUsers "u1").isSome = true := by
  decide

/-- Claim C2 (amended): a merge inserts every listed member into `users`
and every listed departed member into `leftUsers`, and removes nothing
from either collection — in particular it does NOT remove a member from
`leftUsers` or a departed member from `users`, so an identifier listed as
a member in one merge and as departed in another ends up in both. -/
theorem patch_member_collections (st : UserCacheState) (c : Chat) (d : SnapshotData)
    (u v : RawUser) (k1 k2 : String)
    (hu : u ∈ d.users) (hv : v ∈ d.left_users)
    (h1 : (mapGet c.users k1).isSome) (h2 : (mapGet c.leftUsers k2).isSome) :
    (mapGet (Chat.patchChat st c d).2.users u.pk).isSome ∧
    (mapGet (Chat.patchChat st c d).2.leftUsers v.pk).isSome ∧
    (mapGet (Chat.patchChat st c d).2.users k1).isSome ∧
    (mapGet (Chat.patchChat st c d).2.leftUsers k2).isSome := by
  refine ⟨?_, ?_, ?_, ?_⟩
  · exact isSome_mergeUserFold_mem d.users (st, c.users) u hu
  · exact isSome_mergeUserFold_mem d.left_users
      ((d.users.foldl mergeUserEntry (st, c.users)).1, c.leftUsers) v hv
  · exact isSome_mergeUserFold d.users (st, c.users) h1
  · exact isSome_mergeUserFold d.left_users
      ((d.users.foldl mergeUserEntry (st, c.users)).1, c.leftUsers) h2

/-- Witness for the amended C2 theorem at a concrete snapshot and state. -/
theorem patch_member_collections_witness :
    (mapGet (Chat.patchChat stW chatW snapFull).2.users rawU1.pk).isSome ∧
    (mapGet (Chat.patchChat stW chatW snapFull).2.leftUsers rawU2.pk).isSome ∧
    (mapGet (Chat.patchChat stW chatW snapFull).2.users "u1").isSome ∧
    (mapGet (Chat.patchChat stW chatW snapFull).2.leftUsers "u2").isSome :=
  patch_member_collections stW chatW snapFull rawU1 rawU2 "u1" "u2"
    (by decide) (by decide) (by decide) (by decide)

/-- Claim C10: the merge only inserts or overwrites — every key present in
`messages`, `users` or `leftUsers` before a merge is still present after
it, and the merge leaves `id`, `typing`, the disable-on-send flag, both
timer handles and the pending-send waiter map unchanged. -/
theorem patch_frame (st : UserCacheState) (c : Chat) (d : SnapshotData)
    (k1 k2 k3 : String)
    (h1 : (mapGet c.messages k1).isSome)
    (h2 : (mapGet c.users k2).isSome)
    (h3 : (mapGet c.leftUsers k3).isSome) :
    (mapGet (Chat.patchChat st c d).2.messages k1).isSome ∧
    (mapGet (Chat.patchChat st c d).2.users k2).isSome ∧
    (mapGet (Chat.patchChat st c d).2.leftUsers k3).isSome ∧
    (Chat.patchChat st c d).2.id = c.id ∧
    (Chat.patchChat st c d).2.typing = c.typing ∧
    (Chat.patchChat st c d).2.disableTypingOnSend = c.disableTypingOnSend ∧
    (Chat.patchChat st c d).2.stopTypingTimeout = c.stopTypingTimeout ∧
    (Chat.patchChat st c d).2.keepTypingAliveInterval = c.keepTypingAliveInterval ∧
    (Chat.patchChat st c d).2.sentMessagesPromises = c.sentMessagesPromises := by
  refine ⟨?_, ?_, ?_, rfl, rfl, rfl, rfl, rfl, rfl⟩
  · exact isSome_itemsFold c.id d.items c.messages h1
  · exact isSome_mergeUserFold d.users (st, c.users) h2
  · exact isSome_mergeUserFold d.left_users
      ((d.users.foldl mergeUserEntry (st, c.users)).1, c.leftUsers) h3

/-- Witness for the C10 frame theorem at a concrete state and snapshot. -/
theorem patch_frame_witness :
    (mapGet (Chat.patchChat stW chatW emptySnapshot).2.messages "m1").isSome ∧
    (mapGet (Chat.patchChat stW chatW emptySnapshot).2.users "u1").isSome ∧
    (mapGet (Chat.patchChat stW chatW emptySnapshot).2.leftUsers "u2").isSome ∧
    (Chat.patchChat stW chatW emptySnapshot).2.id = chatW.id ∧
    (Chat.patchChat stW chatW emptySnapshot).2.typing = chatW.typing ∧
    (Chat.patchChat stW chatW emptySnapshot).2.disableTypingOnSend = chatW.disableTypingOnSend ∧
    (Chat.patchChat stW chatW emptySnapshot).2.stopTypingTimeout = chatW.stopTypingTimeout ∧
    (Chat.patchChat stW chatW emptySnapshot).2.keepTypingAliveInterval = chatW.keepTypingAliveInterval ∧
    (Chat.patchChat stW chatW emptySnapshot).2.sentMessagesPromises = chatW.sentMessagesPromises :=
  patch_frame stW chatW emptySnapshot "m1" "u1" "u2" (by decide) (by decide) (by decide)

/-- Claim C8: one member/departed merge iteration, against the shared
cache.  If the entry's identifier is cached with reference `r`, the local
collection receives exactly that reference (the cached object's identity
is reused, no `User` is constructed: the allocation counter is unchanged,
the cache is unchanged) and the shared object behind `r` has its fields
patched with the new data.  If it is absent, exactly one new `User` is
constructed and the same reference is stored in the local collection and
the shared cache. -/
theorem mergeUserEntry_cache_discipline (st : UserCacheState)
    (coll : List (String × Nat)) (raw : RawUser) (ro : Option Nat)
    (hro : mapGet st.cacheUsers raw.pk = ro)
    (hwf : ∀ p ∈ st.heap.objs, p.1 < st.heap.next) :
    match ro with
    | some r =>
        mapGet (mergeUserEntry (st, coll) raw).2 raw.pk = some r ∧
        (mergeUserEntry (st, coll) raw).1.cacheUsers = st.cacheUsers ∧
        (mergeUserEntry (st, coll) raw).1.heap.next = st.heap.next ∧
        heapLookup (mergeUserEntry (st, coll) raw).1.heap r
          = (heapLookup st.heap r).map (fun u => User.patchRaw u raw)
    | none =>
        mapGet (mergeUserEntry (st, coll) raw).2 raw.pk = some st.heap.next ∧
        mapGet (mergeUserEntry (st, coll) raw).1.cacheUsers raw.pk = some st.heap.next ∧
        (mergeUserEntry (st, coll) raw).1.heap.next = st.heap.next + 1 ∧
        heapLookup (mergeUserEntry (st, coll) raw).1.heap st.heap.next
          = some (User.ofRaw raw) := by
  cases ro with
  | some r =>
      have e : mergeUserEntry (st, coll) raw =
          ({ st with heap := heapUpdate st.heap r (fun u => User.patchRaw u raw) },
           mapSet raw.pk r coll) := by
        simp only [mergeUserEntry, hro]
      rw [e]
      exact ⟨mapGet_mapSet_self _ _ _, rfl, rfl, heapLookup_heapUpdate st.heap r _⟩
  | none =>
      have e : mergeUserEntry (st, coll) raw =
          ({ st with
              heap := (heapAlloc st.heap (User.ofRaw raw)).2,
              cacheUsers :=
                mapSet raw.pk (heapAlloc st.heap (User.ofRaw raw)).1 st.cacheUsers },
           mapSet raw.pk (heapAlloc st.heap (User.ofRaw raw)).1 coll) := by
        simp only [mergeUserEntry, hro]
      rw [e]
      exact ⟨mapGet_mapSet_self _ _ _, mapGet_mapSet_self _ _ _, rfl,
        heapLookup_alloc st.heap (User.ofRaw raw) hwf⟩

/-- Witness for the C8 theorem: "u1" is cached (reference 0) in `stW`, so
the merge step reuses reference 0, allocates nothing, and patches the
shared object. -/
theorem mergeUserEntry_cache_discipline_witness :
    mapGet (mergeUserEntry (stW, []) rawU1).2 rawU1.pk = some 0 ∧
    (mergeUserEntry (stW, []) rawU1).1.cacheUsers = stW.cacheUsers ∧
    (mergeUserEntry (stW, []) rawU1).1.heap.next = stW.heap.next ∧
    heapLookup (mergeUserEntry (stW, []) rawU1).1.heap 0
      = (heapLookup stW.heap 0).map (fun u => User.patchRaw u rawU1) :=
  mergeUserEntry_cache_discipline stW [] rawU1 (some 0) (by decide) (by decide)

/-- Claim C1: a send whose broadcast succeeds with item identifier `i`
resolves its returned promise exactly once, with the message stored in
`messages` under `i` — in ordering A (the realtime push merged `i` before
the broadcast response is processed) the response path resolves
immediately and discards the waiter; in ordering B (the push arrives
after) the response path registers the waiter and the (spec-modelled)
realtime merge path resolves and removes it.  In both orderings the
combined resolution trace for the promise is exactly one resolution, the
payload is the message under `i`, no waiter survives, and nothing is
rejected.  The last four conjuncts record that `sendVoice` and `sendPhoto`
share the identical response handling, so the property carries over. -/
theorem send_resolution_exactly_once (c : Chat) (p : Nat) (content : String)
    (item : RawItem)
    (hw : mapGet c.sentMessagesPromises item.item_id = none)
    (hm : mapGet c.messages item.item_id = none) :
    ((handleRealtimeItem c item).2
        ++ (Chat.sendMessage (handleRealtimeItem c item).1 p content
              (BroadcastResult.ok item.item_id)).resolutions
      = [(p, Message.ofItem c.id item)] ∧
     (Chat.sendMessage (handleRealtimeItem c item).1 p content
        (BroadcastResult.ok item.item_id)).rejections = [] ∧
     mapGet (Chat.sendMessage (handleRealtimeItem c item).1 p content
        (BroadcastResult.ok item.item_id)).chat.messages item.item_id
      = some (Message.ofItem c.id item) ∧
     mapGet (Chat.sendMessage (handleRealtimeItem c item).1 p content
        (BroadcastResult.ok item.item_id)).chat.sentMessagesPromises item.item_id
      = none) ∧
    ((Chat.sendMessage c p content (BroadcastResult.ok item.item_id)).resolutions
        ++ (handleRealtimeItem
              (Chat.sendMessage c p content (BroadcastResult.ok item.item_id)).chat
              item).2
      = [(p, Message.ofItem c.id item)] ∧
     (Chat.sendMessage c p content (BroadcastResult.ok item.item_id)).rejections = [] ∧
     mapGet (handleRealtimeItem
        (Chat.sendMessage c p content (BroadcastResult.ok item.item_id)).chat
        item).1.messages item.item_id
      = some (Message.ofItem c.id item) ∧
     mapGet (handleRealtimeItem
        (Chat.sendMessage c p content (BroadcastResult.ok item.item_id)).chat
        item).1.sentMessagesPromises item.item_id
      = none) ∧
    (Chat.sendVoice c p (BroadcastResult.ok item.item_id)).resolutions
      = (Chat.sendMessage c p content (BroadcastResult.ok item.item_id)).resolutions ∧
    (Chat.sendVoice c p (BroadcastResult.ok item.item_id)).chat
      = (Chat.sendMessage c p content (BroadcastResult.ok item.item_id)).chat ∧
    (Chat.sendPhoto c p (Except.ok ()) (BroadcastResult.ok item.item_id)).resolutions
      = (Chat.sendMessage c p content (BroadcastResult.ok item.item_id)).resolutions ∧
    (Chat.sendPhoto c p (Except.ok ()) (BroadcastResult.ok item.item_id)).chat
      = (Chat.sendMessage c p content (BroadcastResult.ok item.item_id)).chat := by
  refine ⟨⟨?_, ?_, ?_, ?_⟩, ⟨?_, ?_, ?_, ?_⟩, rfl, rfl, rfl, rfl⟩
  all_goals
    simp [handleRealtimeItem, Chat.sendMessage, broadcastThen, hw, hm,
          mapGet_mapSet_self, mapGet_mapDelete_self]

/-- Witness for the C1 theorem at a concrete chat, promise and item. -/
theorem send_resolution_exactly_once_witness :
    ((handleRealtimeItem chat0 item1).2
        ++ (Chat.sendMessage (handleRealtimeItem chat0 item1).1 7 "hey"
              (BroadcastResult.ok item1.item_id)).resolutions
      = [(7, Message.ofItem chat0.id item1)] ∧
     (Chat.sendMessage (handleRealtimeItem chat0 item1).1 7 "hey"
        (BroadcastResult.ok item1.item_id)).rejections = [] ∧
     mapGet (Chat.sendMessage (handleRealtimeItem chat0 item1).1 7 "hey"
        (BroadcastResult.ok item1.item_id)).chat.messages item1.item_id
      = some (Message.ofItem chat0.id item1) ∧
     mapGet (Chat.sendMessage (handleRealtimeItem chat0 item1).1 7 "hey"
        (BroadcastResult.ok item1.item_id)).chat.sentMessagesPromises item1.item_id
      = none) ∧
    ((Chat.sendMessage chat0 7 "hey" (BroadcastResult.ok item1.item_id)).resolutions
        ++ (handleRealtimeItem
              (Chat.sendMessage chat0 7 "hey" (BroadcastResult.ok item1.item_id)).chat
              item1).2
      = [(7, Message.ofItem chat0.id item1)] ∧
     (Chat.sendMessage chat0 7 "hey" (BroadcastResult.ok item1.item_id)).rejections = [] ∧
     mapGet (handleRealtimeItem
        (Chat.sendMessage chat0 7 "hey" (BroadcastResult.ok item1.item_id)).chat
        item1).1.messages item1.item_id
      = some (Message.ofItem chat0.id item1) ∧
     mapGet (handleRealtimeItem
        (Chat.sendMessage chat0 7 "hey" (BroadcastResult.ok item1.item_id)).chat
        item1).1.sentMessagesPromises item1.item_id
      = none) ∧
    (Chat.sendVoice chat0 7 (BroadcastResult.ok item1.item_id)).resolutions
      = (Chat.sendMessage chat0 7 "hey" (BroadcastResult.ok item1.item_id)).resolutions ∧
    (Chat.sendVoice chat0 7 (BroadcastResult.ok item1.item_id)).chat
      = (Chat.sendMessage chat0 7 "hey" (BroadcastResult.ok item1.item_id)).chat ∧
    (Chat.sendPhoto chat0 7 (Except.ok ()) (BroadcastResult.ok item1.item_id)).resolutions
      = (Chat.sendMessage chat0 7 "hey" (BroadcastResult.ok item1.item_id)).resolutions ∧
    (Chat.sendPhoto chat0 7 (Except.ok ()) (BroadcastResult.ok item1.item_id)).chat
      = (Chat.sendMessage chat0 7 "hey" (BroadcastResult.ok item1.item_id)).chat :=
  send_resolution_exactly_once chat0 7 "hey" item1 (by decide) (by decide)
